import Mathlib

/-!
Shallow embedding of `packages/walletconnect-v2/src/index.ts` (the WalletConnect
v2 connector of web3-react): the chain-list helpers, the chain-changed payload
parsing, and the connection lifecycle (`connectEagerly`, `activate`,
`deactivate`) as pure functions over an explicit connector state, an explicit
environment for the external Provider's behaviour, and a trace of the calls the
connector makes on its collaborators.
-/

namespace WC

/-- Provider events the connector listens to (`handleProviderEvents`,
index.ts lines 80-86): the four event names are string literals in the source;
they are embedded as an enumeration. -/
inductive WCEvent where
  | disconnect
  | chainChanged
  | accountsChanged
  | display_uri
deriving Repr, DecidableEq

/-- Errors the connector throws (the source throws `Error` values with message
strings; they are embedded as values identifying the throw site). -/
inductive WCError where
  | noSession
  | optionalChainNotConnected (chainId : Nat)
  | unknownChain (chainId : Nat)
  | configError
  | providerError
deriving Repr, DecidableEq

/-- One call the connector makes on a collaborator (the Actions object, or the
external Provider), recorded in order of execution. `switchChain c` stands for
`provider.request` of `wallet_switchEthereumChain` with params
`[{chainId: 0x-hex of c}]` (index.ts lines 194-197). -/
inductive Effect where
  | startActivation
  | cancelActivation
  | update (chainId : Option Nat) (accounts : Option (List String))
  | resetState
  | addListener (e : WCEvent)
  | removeListener (e : WCEvent)
  | providerDisconnect
  | enable
  | switchChain (chainId : Nat)
deriving Repr, DecidableEq

/-- The part of a WalletConnect session the connector reads: its presence
(truthiness of `provider.session`) and `session.namespaces.eip155.accounts`
(index.ts lines 163, 177, 181). -/
structure Session where
  eip155Accounts : List String
deriving Repr, DecidableEq

/-- The fields of the external `WalletConnectProvider` the connector reads. -/
structure Provider where
  session : Option Session
  chainId : Nat
  accounts : List String
deriving Repr, DecidableEq

/-- External behaviour of the Provider, fixed per run: what
`EthereumProvider.init` yields (a restored session or none, with chainId and
accounts), whether `enable()` succeeds and the connection data it establishes,
and whether the `wallet_switchEthereumChain` request succeeds. -/
structure Env where
  session : Option Session
  chainId : Nat
  accounts : List String
  enableOk : Bool
  postEnableChainId : Nat
  postEnableAccounts : List String
  switchOk : Bool
deriving Repr, DecidableEq

/-- Connector configuration: `options.chains`, `options.optionalChains` and
`defaultChainId` (index.ts lines 42-57, 70-78). `none` models `undefined`. -/
structure Config where
  chains : Option (List Nat)
  optionalChains : Option (List Nat)
  defaultChainId : Option Nat
deriving Repr, DecidableEq

/-- Decidable equality of settled promise outcomes. -/
instance {ε α : Type} [DecidableEq ε] [DecidableEq α] : DecidableEq (Except ε α) := fun x y =>
  match x, y with
  | .ok a, .ok b => if h : a = b then isTrue (by rw [h]) else isFalse (by simp [h])
  | .error a, .error b => if h : a = b then isTrue (by rw [h]) else isFalse (by simp [h])
  | .ok _, .error _ => isFalse (by simp)
  | .error _, .ok _ => isFalse (by simp)

/-- Mutable fields of the `WalletConnect` class: `this.provider` (declared at
line 61; the source never assigns it except to `undefined` in `deactivate`)
and `this.eagerConnection` (the memoized construction, modelled by the settled
outcome of the memoized promise). -/
structure Conn where
  provider : Option Provider
  eagerConnection : Option (Except WCError Provider)
deriving Repr, DecidableEq

/-- State of a freshly constructed connector: no provider, no memoized
construction. -/
def Conn.init : Conn := ⟨none, none⟩

/-- Modelled from the spec: `getChainsWithDefault` lives in
`packages/walletconnect-v2/src/utils.ts`, which is not among the sources; per
spec section 4.2 it returns a list with `desiredChainId` first followed by the
remaining elements of `chains` in their original relative order. -/
def getChainsWithDefault (chains : List Nat) (desiredChainId : Nat) : List Nat :=
  desiredChainId :: chains.filter (fun c => c != desiredChainId)

/-- Modelled from the spec: `isArrayOneOrMore` lives in
`packages/walletconnect-v2/src/utils.ts`, which is not among the sources; it is
the `ArrayOneOrMore` type guard, true exactly when the value is an array with
at least one element. -/
def isArrayOneOrMore (l : Option (List Nat)) : Bool :=
  match l with
  | none => false
  | some xs => decide (0 < xs.length)

/-- `reorderChainsBasedOnId` (index.ts lines 122-131). The source guard is
`!chains || !desiredChainId || !chains.includes(desiredChainId) ||
chains.length === 0`: an `undefined` chains list, a falsy desired id
(`undefined` or `0`), an id not in the list, or an empty list each yield the
input unchanged; otherwise the call delegates to `getChainsWithDefault`. -/
def reorderChainsBasedOnId (chains : Option (List Nat)) (desiredChainId : Option Nat) :
    Option (List Nat) :=
  match chains with
  | none => none
  | some cs =>
    match desiredChainId with
    | none => some cs
    | some d =>
      if d = 0 then some cs
      else if !cs.contains d then some cs
      else if cs.length = 0 then some cs
      else some (getChainsWithDefault cs d)

/-- Runtime shape of the `ChainsProps` value `getChainProps` returns: both
branches of the source's union type carry the same two fields at runtime. -/
structure ChainsProps where
  chains : Option (List Nat)
  optionalChains : Option (List Nat)
deriving Repr, DecidableEq

/-- Resolution of a JS default parameter `desiredChainId = this.defaultChainId`:
the default applies exactly when the argument is `undefined`. -/
def resolveDesired (cfg : Config) (d : Option Nat) : Option Nat :=
  match d with
  | none => cfg.defaultChainId
  | some v => some v

/-- `getChainProps` (index.ts lines 133-146): reorders `options.chains` and
`options.optionalChains` toward the desired id, returns them when either
reordered list is non-empty, and throws otherwise. Both `return` statements
put the reordered chains in the `chains` field and the reordered optional
chains in the `optionalChains` field; neither branch swaps them. -/
def getChainProps (cfg : Config) (desiredChainId : Option Nat) :
    Except WCError ChainsProps :=
  let orderedChains := reorderChainsBasedOnId cfg.chains desiredChainId
  let orderedOptionalChains := reorderChainsBasedOnId cfg.optionalChains desiredChainId
  if isArrayOneOrMore orderedChains then
    .ok ⟨orderedChains, orderedOptionalChains⟩
  else if isArrayOneOrMore orderedOptionalChains then
    .ok ⟨orderedChains, orderedOptionalChains⟩
  else
    .error .configError

/-- `initializeProvider` (index.ts lines 105-120): awaits the provider module
and the rpc-url selection (network only, no collaborator calls), constructs the
provider with the validated chain props (`getChainProps` may throw first), then
attaches the four listeners (`handleProviderEvents`). The constructed
provider's session, chainId and accounts come from the environment; the rpc-map
selection (`getBestUrlMap`) does not influence any field modelled here. -/
def initializeProvider (env : Env) (cfg : Config) (d : Option Nat) :
    Except WCError Provider × List Effect :=
  match getChainProps cfg (resolveDesired cfg d) with
  | .error e => (.error e, [])
  | .ok _ =>
    (.ok ⟨env.session, env.chainId, env.accounts⟩,
     [.addListener .disconnect, .addListener .chainChanged,
      .addListener .accountsChanged, .addListener .display_uri])

/-- `isomorphicInitialize` (index.ts lines 148-154): returns the memoized
construction when one exists, otherwise starts one and memoizes its outcome
(a rejected construction stays memoized as well, since the promise itself is
stored). -/
def isomorphicInitialize (env : Env) (cfg : Config) (d : Option Nat) (c : Conn) :
    Conn × Except WCError Provider × List Effect :=
  match c.eagerConnection with
  | some r => (c, r, [])
  | none =>
    let out := initializeProvider env cfg (resolveDesired cfg d)
    ({ c with eagerConnection := some out.1 }, out.1, out.2)

/-- `deactivate` (index.ts lines 213-223): when `this.provider` is set, removes
the four listeners from it and calls `disconnect()` (optional chaining makes
all of that a no-op when it is `undefined`), then clears `this.provider` and
the memoized construction and resets Actions. It throws nothing. -/
def deactivate (c : Conn) : Conn × List Effect :=
  let effsP : List Effect :=
    match c.provider with
    | some _ =>
      [.removeListener .disconnect, .removeListener .chainChanged,
       .removeListener .accountsChanged, .removeListener .display_uri,
       .providerDisconnect]
    | none => []
  (⟨none, none⟩, effsP ++ [.resetState])

/-- `connectEagerly` (index.ts lines 157-172): startActivation, then obtain the
provider (the await sits inside the `try`); with no restored session, or on any
construction failure, run `deactivate`, cancel the activation and rethrow;
otherwise report accounts and chainId to Actions. -/
def connectEagerly (env : Env) (cfg : Config) (c : Conn) :
    Conn × List Effect × Except WCError Unit :=
  let (c1, r, effsI) := isomorphicInitialize env cfg none c
  match r with
  | .error e =>
    let (c2, effsD) := deactivate c1
    (c2, .startActivation :: (effsI ++ effsD ++ [.cancelActivation]), .error e)
  | .ok p =>
    match p.session with
    | none =>
      let (c2, effsD) := deactivate c1
      (c2, .startActivation :: (effsI ++ effsD ++ [.cancelActivation]),
       .error .noSession)
    | some _ =>
      (c1, .startActivation :: (effsI ++ [.update (some p.chainId) (some p.accounts)]),
       .ok ())

/-- JavaScript `String.prototype.startsWith`: the first string begins with the
second, character for character. -/
def strStartsWith (s pre : String) : Bool :=
  pre.data.isPrefixOf s.data

/-- `activate` (index.ts lines 174-210). The construction await sits outside
any `try`, so a failed construction propagates without cleanup. With a session:
a falsy (absent or `0`) desired id, or one equal to the current chain, returns
at once; otherwise the session's eip155 accounts decide between a chain-switch
request, the optional-chain error (`options.optionalChains` membership) and the
unknown-chain error, all thrown without cleanup. Without a session:
startActivation, then `enable()`; on failure `deactivate`, cancel and rethrow. -/
def activate (env : Env) (cfg : Config) (d : Option Nat) (c : Conn) :
    Conn × List Effect × Except WCError Unit :=
  let (c1, r, effsI) := isomorphicInitialize env cfg d c
  match r with
  | .error e => (c1, effsI, .error e)
  | .ok p =>
    match p.session with
    | some s =>
      match d with
      | none => (c1, effsI, .ok ())
      | some dv =>
        if dv = 0 ∨ dv = p.chainId then (c1, effsI, .ok ())
        else if s.eip155Accounts.any
            (fun a => strStartsWith a ("eip155:" ++ toString dv ++ ":")) then
          (c1, effsI ++ [.switchChain dv],
           if env.switchOk then .ok () else .error .providerError)
        else if (match cfg.optionalChains with
                 | some l => l.contains dv
                 | none => false) then
          (c1, effsI, .error (.optionalChainNotConnected dv))
        else
          (c1, effsI, .error (.unknownChain dv))
    | none =>
      if env.enableOk then
        (c1,
         effsI ++ [.startActivation, .enable,
           .update (some env.postEnableChainId) (some env.postEnableAccounts)],
         .ok ())
      else
        let (c2, effsD) := deactivate c1
        (c2, effsI ++ [.startActivation, .enable] ++ effsD ++ [.cancelActivation],
         .error .providerError)

/-- The public operations of the connector. -/
inductive Op where
  | eager
  | act (d : Option Nat)
  | deact
deriving Repr, DecidableEq

/-- One public call on the connector. -/
def step (env : Env) (cfg : Config) (c : Conn) :
    Op → Conn × List Effect × Except WCError Unit
  | .eager => connectEagerly env cfg c
  | .act d => activate env cfg d c
  | .deact =>
    let (c2, effs) := deactivate c
    (c2, effs, .ok ())

/-- Run a sequence of public calls, collecting every collaborator call. -/
def run (env : Env) (cfg : Config) : Conn → List Op → Conn × List Effect
  | c, [] => (c, [])
  | c, op :: ops =>
    let (c1, effs, _) := step env cfg c op
    let (c2, rest) := run env cfg c1 ops
    (c2, effs ++ rest)

/-- Listener-attachment calls on the Provider. -/
def isAttachEffect : Effect → Bool
  | .addListener _ => true
  | _ => false

/-- Listener-removal and disconnect calls on the Provider. -/
def isDetachEffect : Effect → Bool
  | .removeListener _ => true
  | .providerDisconnect => true
  | _ => false

/-- Modelled from the spec: the connection state the external Actions
collaborator tracks (spec sections 3 and 4.4; the Actions implementation is not
among the sources). `startActivation` enters Activating, `resetState` and a
cancel return to Idle, an `update` carrying connection data marks Activated;
calls directed at the Provider do not change it. -/
inductive CState where
  | idle
  | activating
  | activated
deriving Repr, DecidableEq

/-- Modelled from the spec: effect of one collaborator call on the Actions
state. -/
def applyEffect (s : CState) : Effect → CState
  | .startActivation => .activating
  | .cancelActivation => .idle
  | .resetState => .idle
  | .update _ _ => .activated
  | _ => s

/-- Actions state after a trace of calls. -/
def actionsAfter (s : CState) (effs : List Effect) : CState :=
  effs.foldl applyEffect s

/-- Numeric value of an ASCII hexadecimal digit, as `Number.parseInt` with
radix 16 accepts them; `none` for any other character. -/
def hexDigitVal (c : Char) : Option Nat :=
  if '0' ≤ c ∧ c ≤ '9' then some (c.toNat - '0'.toNat)
  else if 'a' ≤ c ∧ c ≤ 'f' then some (c.toNat - 'a'.toNat + 10)
  else if 'A' ≤ c ∧ c ≤ 'F' then some (c.toNat - 'A'.toNat + 10)
  else none

/-- Accumulate hexadecimal digits left to right, stopping at the first
non-digit (`Number.parseInt` reads the longest valid prefix). -/
def parseHexAux (acc : Nat) : List Char → Nat
  | [] => acc
  | ch :: cs =>
    match hexDigitVal ch with
    | some dg => parseHexAux (acc * 16 + dg) cs
    | none => acc

/-- Models JavaScript `Number.parseInt(s, 16)` on the payloads relevant here
(no leading whitespace or sign): an optional `0x`/`0X` prefix is stripped, then
the longest leading run of hexadecimal digits is read; `none` models `NaN`
(no digit at all). -/
def jsParseIntHex (s : String) : Option Nat :=
  let cs := s.data
  let body := if cs.take 2 = ['0', 'x'] ∨ cs.take 2 = ['0', 'X'] then cs.drop 2 else cs
  match body with
  | [] => none
  | ch :: _ => if (hexDigitVal ch).isSome then some (parseHexAux 0 body) else none

/-- `chainChangedListener` (index.ts lines 93-95): the chainId value the
listener passes to `actions.update` is `Number.parseInt(payload, 16)` —
the payload is always parsed with radix 16. -/
def chainChangedListener (chainId : String) : Option Nat :=
  jsParseIntHex chainId

/-- Lower-case hexadecimal digit character for a value below 16 (the case
`Number.prototype.toString(16)` produces). -/
def hexDigitChar (n : Nat) : Char :=
  if n < 10 then Char.ofNat ('0'.toNat + n) else Char.ofNat ('a'.toNat + (n - 10))

/-- The `0x`-prefixed lower-case hexadecimal rendering of a positive chain id,
the usual EIP-155 hexadecimal chain-id payload (also the format the connector
itself sends in its switch-chain request, index.ts line 196). -/
def natToHexString (n : Nat) : String :=
  String.mk ('0' :: 'x' :: ((Nat.digits 16 n).reverse.map hexDigitChar))

/-- Concrete session on chain 1. -/
def sessA : Session := ⟨["eip155:1:0xa"]⟩

/-- Concrete provider holding `sessA`, on chain 1. -/
def provA : Provider := ⟨some sessA, 1, ["0xa"]⟩

/-- Concrete provider holding `sessA` but currently on chain 7. -/
def provB : Provider := ⟨some sessA, 7, ["0xa"]⟩

/-- Environment whose construction restores `sessA` on chain 1. -/
def envA : Env := ⟨some sessA, 1, ["0xa"], true, 1, ["0xa"], true⟩

/-- Environment whose construction restores no session. -/
def envNoSession : Env := ⟨none, 1, [], true, 1, [], true⟩

/-- Environment with no restored session and a failing `enable()`. -/
def envEnableFail : Env := ⟨none, 1, [], false, 1, [], true⟩

/-- Configuration with required chain 1 only. -/
def cfgA : Config := ⟨some [1], none, none⟩

/-- Configuration with required chains 1 and 5 and no optional chains. -/
def cfgB : Config := ⟨some [1, 5], none, none⟩

/-- Configuration with required chain 1 and optional chain 5. -/
def cfgOpt : Config := ⟨some [1], some [5], none⟩

/-- Connector state whose memoized construction resolved to `provA`. -/
def connA : Conn := ⟨none, some (Except.ok provA)⟩

/-- Connector state whose memoized construction resolved to `provB`. -/
def connB : Conn := ⟨none, some (Except.ok provB)⟩

/-- Reordering with an absent chain list yields the absent list. -/
theorem reorder_none_chains (d : Option Nat) : reorderChainsBasedOnId none d = none := rfl

/-- Reordering with an absent desired id is the identity. -/
theorem reorder_none_desired (cs : Option (List Nat)) :
    reorderChainsBasedOnId cs none = cs := by
  cases cs <;> rfl

/-- Reordering with desired id 0 is the identity: the guard tests truthiness. -/
theorem reorder_zero (L : List Nat) : reorderChainsBasedOnId (some L) (some 0) = some L := by
  simp [reorderChainsBasedOnId]

/-- Reordering with a desired id not in the list is the identity. -/
theorem reorder_not_mem (L : List Nat) (d : Nat) (h : d ∉ L) :
    reorderChainsBasedOnId (some L) (some d) = some L := by
  rcases eq_or_ne d 0 with h0 | h0
  · rw [h0]; exact reorder_zero L
  · have hc : L.contains d = false := by
      simpa using h
    simp only [reorderChainsBasedOnId]
    rw [if_neg h0, if_pos (by rw [hc]; rfl)]

/-- Reordering with a nonzero desired id that is in the list moves it to the
front, the remaining elements keeping their relative order. -/
theorem reorder_mem (L : List Nat) (d : Nat) (h0 : d ≠ 0) (hm : d ∈ L) :
    reorderChainsBasedOnId (some L) (some d) =
      some (d :: L.filter (fun c => c != d)) := by
  have hc : L.contains d = true := by simpa using hm
  have hne : ¬ L.length = 0 := by
    simp only [List.length_eq_zero]
    exact List.ne_nil_of_mem hm
  simp only [reorderChainsBasedOnId]
  rw [if_neg h0, if_neg (by rw [hc]; decide), if_neg hne]
  rfl

/-- Reordering twice with the same desired id equals reordering once. -/
theorem reorder_idem (cs : Option (List Nat)) (d : Option Nat) :
    reorderChainsBasedOnId (reorderChainsBasedOnId cs d) d =
      reorderChainsBasedOnId cs d := by
  cases cs with
  | none => rw [reorder_none_chains, reorder_none_chains]
  | some L =>
    cases d with
    | none => rw [reorder_none_desired, reorder_none_desired]
    | some dv =>
      rcases eq_or_ne dv 0 with h0 | h0
      · rw [h0, reorder_zero, reorder_zero]
      by_cases hm : dv ∈ L
      · rw [reorder_mem L dv h0 hm,
          reorder_mem _ dv h0 (List.mem_cons_self dv _)]
        have hcons : (dv :: L.filter (fun c => c != dv)).filter (fun c => c != dv)
            = (L.filter (fun c => c != dv)).filter (fun c => c != dv) := by
          simp [List.filter_cons]
        have hidem : (L.filter (fun c => c != dv)).filter (fun c => c != dv)
            = L.filter (fun c => c != dv) :=
          List.filter_eq_self.mpr (fun a ha => (List.mem_filter.mp ha).2)
        rw [hcons, hidem]
      · rw [reorder_not_mem L dv hm, reorder_not_mem L dv hm]

/-- The claim that `getChainProps` swaps the two lists when only the optional
list is non-empty is false: at `chains = []`, `optionalChains = [1]` the result
keeps the empty list in the `chains` field and `[1]` in the `optionalChains`
field, not the swapped pair the claim states. -/
theorem C2_counterexample :
    getChainProps ⟨some [], some [1], none⟩ none = Except.ok ⟨some [], some [1]⟩ ∧
    ChainsProps.mk (some []) (some [1]) ≠ ChainsProps.mk (some [1]) (some []) := by
  exact ⟨by decide, by decide⟩

/-- Chain-set validation as the code has it: with no reordering requested the
result is `{chains, optionalChains}` unchanged whenever either list is
non-empty (no swap in the optional-only case), and a configuration error
otherwise; `validate([1],[])` and `validate([],[1])` each succeed with exactly
one non-empty list, and `validate([],[])` (also with both absent) throws. -/
theorem C2_amended :
    (∀ req opt : Option (List Nat),
      getChainProps ⟨req, opt, none⟩ none =
        if isArrayOneOrMore req || isArrayOneOrMore opt then Except.ok ⟨req, opt⟩
        else Except.error WCError.configError) ∧
    getChainProps ⟨some [1], some [], none⟩ none = Except.ok ⟨some [1], some []⟩ ∧
    getChainProps ⟨some [], some [1], none⟩ none = Except.ok ⟨some [], some [1]⟩ ∧
    getChainProps ⟨some [], some [], none⟩ none = Except.error WCError.configError ∧
    getChainProps ⟨none, none, none⟩ none = Except.error WCError.configError := by
  refine ⟨?_, by decide, by decide, by decide, by decide⟩
  intro req opt
  show getChainProps ⟨req, opt, none⟩ none = _
  simp only [getChainProps]
  rw [show reorderChainsBasedOnId (Config.mk req opt none).chains none = req from
      reorder_none_desired req,
    show reorderChainsBasedOnId (Config.mk req opt none).optionalChains none = opt from
      reorder_none_desired opt]
  cases h1 : isArrayOneOrMore req <;> cases h2 : isArrayOneOrMore opt <;> simp [h1, h2]

/-- The chain-reordering claim fails at desired id 0: with `L = [5, 0]` and
`desiredChainId = 0 ∈ L` the result is `L` unchanged, whose first element is
not 0, because the guard `!desiredChainId` treats 0 as absent. -/
theorem C7_counterexample :
    reorderChainsBasedOnId (some [5, 0]) (some 0) = some [5, 0] ∧
    0 ∈ ([5, 0] : List Nat) ∧
    ¬ ([5, 0] : List Nat).head? = some 0 := by
  exact ⟨by decide, by decide, by decide⟩

/-- The reorder contract, amended to treat a desired id of 0 as absent:
identity when the list is absent, the desired id absent or 0, or not an
element; for a nonzero member the result puts the desired id first with every
occurrence of it removed from the remainder, order preserved; and reordering
is idempotent. -/
theorem C7_amended :
    (∀ d, reorderChainsBasedOnId none d = none) ∧
    (∀ L : List Nat, reorderChainsBasedOnId (some L) none = some L) ∧
    (∀ L : List Nat, reorderChainsBasedOnId (some L) (some 0) = some L) ∧
    (∀ (L : List Nat) (d : Nat), d ∉ L →
      reorderChainsBasedOnId (some L) (some d) = some L) ∧
    (∀ (L : List Nat) (d : Nat), d ≠ 0 → d ∈ L →
      reorderChainsBasedOnId (some L) (some d) =
        some (d :: L.filter (fun c => c != d))) ∧
    (∀ (cs : Option (List Nat)) (d : Option Nat),
      reorderChainsBasedOnId (reorderChainsBasedOnId cs d) d =
        reorderChainsBasedOnId cs d) :=
  ⟨reorder_none_chains, fun L => reorder_none_desired (some L), reorder_zero,
   reorder_not_mem, reorder_mem, reorder_idem⟩

/-- Witness: reordering `[1, 2, 3]` toward 2 puts 2 first and keeps 1, 3 in
order. -/
theorem C7_witness :
    reorderChainsBasedOnId (some [1, 2, 3]) (some 2) = some [2, 1, 3] := by
  have h := C7_amended.2.2.2.2.1 [1, 2, 3] 2 (by decide) (by decide)
  exact h.trans (by decide)

/-- `deactivate` is idempotent: it never throws (its embedding is a total
function), each call leaves the provider reference and the memoized handle
cleared, a second call does exactly one `resetState`, and after each call the
Actions collaborator is in the Idle state, from any starting state. -/
theorem C9_idempotent (c : Conn) (s : CState) :
    (deactivate c).1 = Conn.init ∧
    deactivate (deactivate c).1 = (Conn.init, [Effect.resetState]) ∧
    actionsAfter s (deactivate c).2 = CState.idle ∧
    actionsAfter s ((deactivate c).2 ++ (deactivate (deactivate c).1).2) =
      CState.idle := by
  obtain ⟨p, e⟩ := c
  cases p <;> simp [deactivate, Conn.init, actionsAfter, applyEffect]

/-- A desired chain id of 0 is treated as absent: `reorderChainsBasedOnId`
returns the list unchanged for every list (in particular when 0 is an
element), and `activate(0)` on a connector whose memoized provider has a
session returns successfully with no collaborator call at all — no
chain-switch request — for every current chain id of the provider. -/
theorem C10_zero_treated_absent :
    (∀ L : List Nat, reorderChainsBasedOnId (some L) (some 0) = some L) ∧
    (∀ (env : Env) (cfg : Config) (c : Conn) (p : Provider) (s : Session),
      c.eagerConnection = some (Except.ok p) → p.session = some s →
      activate env cfg (some 0) c = (c, [], Except.ok ())) := by
  refine ⟨reorder_zero, ?_⟩
  intro env cfg c p s h1 h2
  simp [activate, isomorphicInitialize, h1, h2]

/-- Witness: `activate(0)` against a memoized provider on chain 7 with a
session is a successful no-op. -/
theorem C10_witness :
    activate envA cfgA (some 0) connB = (connB, [], Except.ok ()) :=
  C10_zero_treated_absent.2 envA cfgA connB provB sessA rfl rfl

/-- With a memoized provider that has a session, `activate` with no desired
chain id or with the provider's current chain id returns successfully, leaves
the state unchanged and makes no collaborator call at all: no chain-switch
request and no `startActivation`, `update` or `resetState` on Actions. -/
theorem C8_noop (env : Env) (cfg : Config) (d : Option Nat) (c : Conn) (p : Provider)
    (s : Session) (h1 : c.eagerConnection = some (Except.ok p))
    (h2 : p.session = some s) (h3 : d = none ∨ d = some p.chainId) :
    activate env cfg d c = (c, [], Except.ok ()) := by
  rcases h3 with rfl | rfl
  · simp [activate, isomorphicInitialize, h1, h2]
  · simp [activate, isomorphicInitialize, h1, h2]

/-- Witness: `activate()` with no desired id against a memoized provider with
a session is a successful no-op. -/
theorem C8_witness : activate envA cfgA none connA = (connA, [], Except.ok ()) :=
  C8_noop envA cfgA none connA provA sessA rfl rfl (Or.inl rfl)

/-- The claim that `UnknownChainError` arises only when the requested chain is
in neither configured set is false: with `chains = [1, 5]`, no optional
chains, and a session connected only to chain 1, `activate(5)` throws the
unknown-chain error although 5 is in the required set. -/
theorem C4_counterexample :
    activate envA cfgB (some 5) connA =
      (connA, [], Except.error (WCError.unknownChain 5)) ∧
    cfgB.chains = some [1, 5] ∧ 5 ∈ ([1, 5] : List Nat) ∧
    cfgB.optionalChains = none := by
  exact ⟨by decide, rfl, by decide, rfl⟩

/-- Chain-mismatch errors as the code decides them: with a session not
connected to the (nonzero, non-current) desired chain, `activate` throws the
recoverable optional-chain error when the desired chain is in
`options.optionalChains`, and the unknown-chain error otherwise — membership
in the required `chains` list is never consulted. -/
theorem C4_amended (env : Env) (cfg : Config) (c : Conn) (p : Provider) (s : Session)
    (dv : Nat) (h1 : c.eagerConnection = some (Except.ok p))
    (h2 : p.session = some s) (h3 : dv ≠ 0) (h4 : dv ≠ p.chainId)
    (h5 : s.eip155Accounts.any
      (fun a => strStartsWith a ("eip155:" ++ toString dv ++ ":")) = false) :
    activate env cfg (some dv) c =
      (c, [],
       Except.error
         (if (match cfg.optionalChains with
              | some l => l.contains dv
              | none => false) then WCError.optionalChainNotConnected dv
          else WCError.unknownChain dv)) := by
  have hcond : ¬ (dv = 0 ∨ dv = p.chainId) := by
    rintro (h | h)
    · exact h3 h
    · exact h4 h
  simp only [activate, isomorphicInitialize, h1, h2]
  rw [if_neg hcond, if_neg (by rw [h5]; decide)]
  split <;> rfl

/-- Witness: with optional chain 5 configured and a session connected only to
chain 1, `activate(5)` throws the recoverable optional-chain error. -/
theorem C4_witness :
    activate envA cfgOpt (some 5) connA =
      (connA, [], Except.error (WCError.optionalChainNotConnected 5)) := by
  have h := C4_amended envA cfgOpt connA provA sessA 5 rfl rfl (by decide) (by decide)
    (by decide)
  exact h.trans (by decide)

/-- Obtaining the provider never touches `this.provider`. -/
theorem iso_provider (env : Env) (cfg : Config) (d : Option Nat) (c : Conn) :
    ((isomorphicInitialize env cfg d c).1).provider = c.provider := by
  cases hc : c.eagerConnection <;> simp [isomorphicInitialize, hc]

/-- `connectEagerly` leaves `this.provider` unset when it was unset. -/
theorem connectEagerly_provider_none (env : Env) (cfg : Config) (c : Conn)
    (h : c.provider = none) : ((connectEagerly env cfg c).1).provider = none := by
  obtain ⟨cp, ce⟩ := c
  simp only [Conn.mk.injEq] at h
  subst h
  rcases ce with _ | r
  · rcases hI : initializeProvider env cfg (resolveDesired cfg none) with ⟨r, effs⟩
    rcases r with e | p
    · simp [connectEagerly, isomorphicInitialize, hI, deactivate]
    · rcases hs : p.session with _ | s <;>
        simp [connectEagerly, isomorphicInitialize, hI, hs, deactivate]
  · rcases r with e | p
    · simp [connectEagerly, isomorphicInitialize, deactivate]
    · rcases hs : p.session with _ | s <;>
        simp [connectEagerly, isomorphicInitialize, hs, deactivate]

/-- `activate` leaves `this.provider` unset when it was unset. -/
theorem activate_provider_none (env : Env) (cfg : Config) (d : Option Nat) (c : Conn)
    (h : c.provider = none) : ((activate env cfg d c).1).provider = none := by
  obtain ⟨cp, ce⟩ := c
  simp only [Conn.mk.injEq] at h
  subst h
  rcases ce with _ | r
  · rcases hI : initializeProvider env cfg (resolveDesired cfg d) with ⟨r, effs⟩
    rcases r with e | p
    · simp [activate, isomorphicInitialize, hI, deactivate]
    · rcases hs : p.session with _ | s
      · cases hE : env.enableOk <;>
          simp [activate, isomorphicInitialize, hI, hs, hE, deactivate]
      · rcases d with _ | dv
        · simp [activate, isomorphicInitialize, hI, hs]
        · by_cases h0 : dv = 0 ∨ dv = p.chainId
          · simp [activate, isomorphicInitialize, hI, hs, h0]
          · simp only [activate, isomorphicInitialize, hI, hs]
            rw [if_neg h0]
            split <;> try rfl
            split <;> rfl
  · rcases r with e | p
    · simp [activate, isomorphicInitialize]
    · rcases hs : p.session with _ | s
      · cases hE : env.enableOk <;>
          simp [activate, isomorphicInitialize, hs, hE, deactivate]
      · rcases d with _ | dv
        · simp [activate, isomorphicInitialize, hs]
        · by_cases h0 : dv = 0 ∨ dv = p.chainId
          · simp [activate, isomorphicInitialize, hs, h0]
          · simp only [activate, isomorphicInitialize, hs]
            rw [if_neg h0]
            split <;> try rfl
            split <;> rfl

/-- One public call leaves `this.provider` unset when it was unset. -/
theorem step_provider_none (env : Env) (cfg : Config) (c : Conn) (op : Op)
    (h : c.provider = none) : ((step env cfg c op).1).provider = none := by
  cases op with
  | eager => exact connectEagerly_provider_none env cfg c h
  | act d => exact activate_provider_none env cfg d c h
  | deact => rfl

/-- Any run of public calls leaves `this.provider` unset when it started
unset. -/
theorem run_provider_none (env : Env) (cfg : Config) :
    ∀ (ops : List Op) (c : Conn), c.provider = none →
      ((run env cfg c ops).1).provider = none := by
  intro ops
  induction ops with
  | nil => intro c h; simpa [run] using h
  | cons op ops ih =>
    intro c h
    rcases hS : step env cfg c op with ⟨c1, effs, r⟩
    have hc1 : c1.provider = none := by
      have := step_provider_none env cfg c op h
      rw [hS] at this
      exact this
    rcases hR : run env cfg c1 ops with ⟨c2, rest⟩
    have hc2 := ih c1 hc1
    rw [hR] at hc2
    simp only at hc2
    simp [run, hS, hR, hc2]

/-- Attach is never undone: `this.provider` stays unset over every run of
public calls (the source only ever assigns `undefined` to it), so
`deactivate`'s optional-chained listener removal and `disconnect()` never
execute. Concretely, after a successful `connectEagerly` followed by
`deactivate`, the trace holds the four listener attachments and not one
`removeListener` or `disconnect` call. -/
theorem C1_eval :
    (∀ (env : Env) (cfg : Config) (ops : List Op),
      ((run env cfg Conn.init ops).1).provider = none) ∧
    ((run envA cfgA Conn.init [Op.eager, Op.deact]).2.filter isAttachEffect).length = 4 ∧
    (run envA cfgA Conn.init [Op.eager, Op.deact]).2.filter isDetachEffect = [] := by
  refine ⟨?_, by decide, by decide⟩
  intro env cfg ops
  exact run_provider_none env cfg ops Conn.init rfl

/-- Failure of the session-establishing step: `connectEagerly` with no
restored session, and `activate` with a rejecting `enable()`, each run
`deactivate` (clearing the memoized handle and resetting Actions), cancel the
activation, and rethrow the error — but the cleanup removes no listener and
never calls `disconnect()`, because `this.provider` was never assigned. -/
theorem C5_eval :
    connectEagerly envNoSession cfgA Conn.init =
      (Conn.init,
       [Effect.startActivation, Effect.addListener WCEvent.disconnect,
        Effect.addListener WCEvent.chainChanged, Effect.addListener WCEvent.accountsChanged,
        Effect.addListener WCEvent.display_uri, Effect.resetState,
        Effect.cancelActivation],
       Except.error WCError.noSession) ∧
    activate envEnableFail cfgA none Conn.init =
      (Conn.init,
       [Effect.addListener WCEvent.disconnect, Effect.addListener WCEvent.chainChanged,
        Effect.addListener WCEvent.accountsChanged, Effect.addListener WCEvent.display_uri,
        Effect.startActivation, Effect.enable, Effect.resetState,
        Effect.cancelActivation],
       Except.error WCError.providerError) ∧
    (connectEagerly envNoSession cfgA Conn.init).2.1.filter isDetachEffect = [] ∧
    (activate envEnableFail cfgA none Conn.init).2.1.filter isDetachEffect = [] := by
  exact ⟨by decide, by decide, by decide, by decide⟩

/-- A public call on a connector holding a memoized construction either keeps
that handle or runs a `deactivate` (visible as the `resetState` it alone
emits among the operations). -/
theorem step_handle (env : Env) (cfg : Config) (c : Conn) (op : Op)
    (r : Except WCError Provider) (hc : c.eagerConnection = some r) :
    ((step env cfg c op).1).eagerConnection = some r ∨
      Effect.resetState ∈ (step env cfg c op).2.1 := by
  cases op with
  | deact =>
    exact Or.inr (by cases hp : c.provider <;> simp [step, deactivate, hp])
  | eager =>
    rcases r with e | p
    · exact Or.inr (by
        cases hp : c.provider <;>
          simp [step, connectEagerly, isomorphicInitialize, deactivate, hc, hp])
    · rcases hs : p.session with _ | s
      · exact Or.inr (by
          cases hp : c.provider <;>
            simp [step, connectEagerly, isomorphicInitialize, deactivate, hc, hs, hp])
      · exact Or.inl (by simp [step, connectEagerly, isomorphicInitialize, hc, hs])
  | act d =>
    rcases r with e | p
    · exact Or.inl (by simp [step, activate, isomorphicInitialize, hc])
    · rcases hs : p.session with _ | s
      · cases hE : env.enableOk
        · exact Or.inr (by
            cases hp : c.provider <;>
              simp [step, activate, isomorphicInitialize, deactivate, hc, hs, hE, hp])
        · exact Or.inl (by simp [step, activate, isomorphicInitialize, hc, hs, hE])
      · refine Or.inl ?_
        rcases d with _ | dv
        · simp [step, activate, isomorphicInitialize, hc, hs]
        · by_cases h0 : dv = 0 ∨ dv = p.chainId
          · simp [step, activate, isomorphicInitialize, hc, hs, h0]
          · simp only [step, activate, isomorphicInitialize, hc, hs]
            rw [if_neg h0]
            split
            · split <;> exact hc
            · split <;> exact hc

/-- Provider construction is single-flight: with a memoized handle every
caller of the initializer — whatever environment, configuration or desired
chain it passes — gets that same settled outcome back, with no state change
and no collaborator call (no second construction); a first call memoizes its
outcome so a second caller shares it; a public call clears the handle only by
running `deactivate` (the sole emitter of `resetState`); and after
`deactivate` the handle is empty, so a new construction may start. -/
theorem C6_single_flight :
    (∀ (env : Env) (cfg : Config) (d : Option Nat) (c : Conn)
      (r : Except WCError Provider), c.eagerConnection = some r →
      isomorphicInitialize env cfg d c = (c, r, [])) ∧
    (∀ (env env2 : Env) (cfg cfg2 : Config) (d d2 : Option Nat) (c : Conn),
      c.eagerConnection = none →
      ((isomorphicInitialize env cfg d c).1).eagerConnection =
        some (isomorphicInitialize env cfg d c).2.1 ∧
      isomorphicInitialize env2 cfg2 d2 (isomorphicInitialize env cfg d c).1 =
        ((isomorphicInitialize env cfg d c).1,
         (isomorphicInitialize env cfg d c).2.1, [])) ∧
    (∀ (env : Env) (cfg : Config) (c : Conn) (op : Op),
      ((step env cfg c op).1).eagerConnection = none →
      c.eagerConnection = none ∨ Effect.resetState ∈ (step env cfg c op).2.1) ∧
    (∀ c : Conn, ((deactivate c).1).eagerConnection = none) := by
  have hmem : ∀ (env : Env) (cfg : Config) (d : Option Nat) (c : Conn)
      (r : Except WCError Provider), c.eagerConnection = some r →
      isomorphicInitialize env cfg d c = (c, r, []) := by
    intro env cfg d c r hc
    simp [isomorphicInitialize, hc]
  refine ⟨hmem, ?_, ?_, fun c => rfl⟩
  · intro env env2 cfg cfg2 d d2 c hc
    rcases hI : initializeProvider env cfg (resolveDesired cfg d) with ⟨r, effs⟩
    have h1 : ((isomorphicInitialize env cfg d c).1).eagerConnection =
        some (isomorphicInitialize env cfg d c).2.1 := by
      simp [isomorphicInitialize, hc, hI]
    refine ⟨h1, ?_⟩
    exact hmem env2 cfg2 d2 _ _ h1
  · intro env cfg c op h
    rcases hc : c.eagerConnection with _ | r
    · exact Or.inl rfl
    · rcases step_handle env cfg c op r hc with hkeep | hres
      · rw [h] at hkeep
        cases hkeep
      · exact Or.inr hres

/-- Witness: a caller hitting the memoized construction gets the memoized
provider back with no state change and no collaborator call. -/
theorem C6_witness :
    isomorphicInitialize envA cfgA none connA = (connA, Except.ok provA, []) :=
  C6_single_flight.1 envA cfgA none connA (Except.ok provA) rfl

/-- Rendering a hexadecimal digit and reading it back is the identity. -/
theorem hexVal_hexChar : ∀ d : Nat, d < 16 → hexDigitVal (hexDigitChar d) = some d := by
  decide

/-- Accumulating over a concatenation whose first part is all hexadecimal
digits splits into two accumulations. -/
theorem parseHexAux_valid_append (l1 l2 : List Char) (acc : Nat)
    (h : ∀ ch ∈ l1, (hexDigitVal ch).isSome) :
    parseHexAux acc (l1 ++ l2) = parseHexAux (parseHexAux acc l1) l2 := by
  induction l1 generalizing acc with
  | nil => simp [parseHexAux]
  | cons ch cs ih =>
    obtain ⟨dg, hdg⟩ := Option.isSome_iff_exists.mp (h ch (List.mem_cons_self ch cs))
    rw [List.cons_append]
    simp only [parseHexAux, hdg]
    exact ih (acc * 16 + dg) (fun x hx => h x (List.mem_cons_of_mem ch hx))

/-- Accumulating the big-endian hexadecimal rendering of a digit list yields
its value. -/
theorem parseHexAux_digits (ds : List Nat) (h : ∀ d ∈ ds, d < 16) (acc : Nat) :
    parseHexAux acc ((ds.reverse).map hexDigitChar) =
      acc * 16 ^ ds.length + Nat.ofDigits 16 ds := by
  induction ds generalizing acc with
  | nil => simp [parseHexAux, Nat.ofDigits_nil]
  | cons d t ih =>
    have hd : d < 16 := h d (List.mem_cons_self d t)
    have ht : ∀ x ∈ t, x < 16 := fun x hx => h x (List.mem_cons_of_mem d hx)
    have hvalid : ∀ ch ∈ (t.reverse).map hexDigitChar, (hexDigitVal ch).isSome := by
      intro ch hch
      rw [List.mem_map] at hch
      obtain ⟨x, hx, rfl⟩ := hch
      rw [hexVal_hexChar x (ht x (List.mem_reverse.mp hx))]
      rfl
    rw [List.reverse_cons, List.map_append, parseHexAux_valid_append _ _ _ hvalid,
      ih ht acc]
    simp only [List.map_cons, List.map_nil, parseHexAux, hexVal_hexChar d hd]
    rw [Nat.ofDigits_cons, List.length_cons, pow_succ]
    ring

/-- The chain-changed claim fails on decimal payloads: the payload "56" (the
decimal rendering of chain id 56) is parsed with radix 16, so the listener
reports 86, not 56. -/
theorem C3_counterexample :
    chainChangedListener "56" = some 86 ∧ (86 : Nat) ≠ 56 := by
  exact ⟨by decide, by decide⟩

/-- The chain-changed listener parses every payload with radix 16, so it
reports the correct chain id exactly for hexadecimal payloads: for every
positive chain id, the `0x`-prefixed hexadecimal payload is reported as that
id (decimal payloads are misread as hexadecimal, see the counterexample). -/
theorem C3_amended (n : Nat) (h : 0 < n) :
    chainChangedListener (natToHexString n) = some n := by
  have hne : Nat.digits 16 n ≠ [] :=
    Nat.digits_ne_nil_iff_ne_zero.mpr (Nat.pos_iff_ne_zero.mp h)
  have hlt : ∀ d ∈ Nat.digits 16 n, d < 16 := fun d hd =>
    Nat.digits_lt_base (by norm_num) hd
  have hrevne : (Nat.digits 16 n).reverse ≠ [] := by
    simpa using hne
  obtain ⟨d0, ds, hds⟩ := List.exists_cons_of_ne_nil hrevne
  have hd0mem : d0 ∈ Nat.digits 16 n := by
    rw [← List.mem_reverse, hds]
    exact List.mem_cons_self d0 ds
  have hd0 : d0 < 16 := hlt d0 hd0mem
  have hval : parseHexAux 0 ((Nat.digits 16 n).reverse.map hexDigitChar) = n := by
    rw [parseHexAux_digits (Nat.digits 16 n) hlt 0]
    simp [Nat.ofDigits_digits]
  show jsParseIntHex (natToHexString n) = some n
  simp only [jsParseIntHex, natToHexString]
  have htake : List.take 2 ('0' :: 'x' :: List.map hexDigitChar (Nat.digits 16 n).reverse)
      = ['0', 'x'] := rfl
  have hdrop : List.drop 2 ('0' :: 'x' :: List.map hexDigitChar (Nat.digits 16 n).reverse)
      = List.map hexDigitChar (Nat.digits 16 n).reverse := rfl
  rw [htake, hdrop, if_pos (Or.inl rfl), hval,
    show List.map hexDigitChar (Nat.digits 16 n).reverse
        = hexDigitChar d0 :: List.map hexDigitChar ds from by rw [hds, List.map_cons]]
  show (if (hexDigitVal (hexDigitChar d0)).isSome = true then some n else none) = some n
  rw [if_pos (by rw [hexVal_hexChar d0 hd0]; rfl)]

/-- Witness: the hexadecimal payload for chain id 56 ("0x38") is reported as
56. -/
theorem C3_witness : chainChangedListener (natToHexString 56) = some 56 :=
  C3_amended 56 (by decide)

end WC
